import Mathlib

/-!
Shallow embedding of the Relax IR expression module
(`src/python/tvm/relax/expr.py`) and of the IR contracts it relies on.

Pure Python methods are translated as Lean functions; Python exceptions
become `Except` results; the FFI-side behaviour that the Python module
delegates to (identifier minting, checked-mode validation, run-time shape
matching) is modelled from the specification and marked as such in the
doc comments of the corresponding definitions.
-/

set_option maxHeartbeats 1000000

namespace Relax

/-- A symbolic integer term (`PrimExpr`): either a named symbolic dimension
or an integer literal. -/
inductive PrimExpr where
  | sym (name : String)
  | lit (value : Int)
deriving DecidableEq, Repr

/-- A Python exception raised by the expression-construction helpers. -/
inductive PyError where
  | indexError
  | typeError
  | valueError
deriving DecidableEq, Repr

/-- `ShapeExpr` (`expr.py` lines 45-64): an ordered sequence of symbolic
integer terms, one per tensor axis. -/
structure ShapeExpr where
  values : List PrimExpr
deriving DecidableEq, Repr

/-- `ShapeExpr.__len__`: the rank, i.e. the number of stored terms. -/
def ShapeExpr.__len__ (s : ShapeExpr) : Nat :=
  s.values.length

/-- Modelled from the spec: `self.values` is a runtime array indexed with
Python sequence semantics — a negative index counts from the end, and any
index that is still out of range raises `IndexError`. -/
def tvmArrayGet (xs : List PrimExpr) (i : Int) : Except PyError PrimExpr :=
  let j : Int := if i < 0 then i + (xs.length : Int) else i
  if 0 ≤ j then
    match xs.get? j.toNat with
    | some t => .ok t
    | none => .error .indexError
  else
    .error .indexError

/-- `ShapeExpr.__getitem__` (`expr.py` lines 58-61): raise `IndexError` when
`index >= len(self)`, otherwise return `self.values[index]`. -/
def ShapeExpr.__getitem__ (s : ShapeExpr) (index : Int) : Except PyError PrimExpr :=
  if (s.__len__ : Int) ≤ index then
    .error .indexError
  else
    tvmArrayGet s.values index

/-- A shape value already acceptable as a shape argument without coercion:
a `ShapeExpr` or the `RuntimeDepShape` marker. -/
inductive ShapeAnn where
  | shape (s : ShapeExpr)
  | runtimeDep
deriving DecidableEq, Repr

/-- What Python callers may pass as a shape argument: a plain list, a plain
tuple, or an already-built shape node. -/
inductive RawShapeArg where
  | pyList (terms : List PrimExpr)
  | pyTuple (terms : List PrimExpr)
  | already (a : ShapeAnn)
deriving DecidableEq, Repr

/-- `make_shape` (`expr.py` lines 67-70): build a `ShapeExpr` from a plain
list or tuple, and raise `ValueError` on anything else. -/
def make_shape : RawShapeArg → Except PyError ShapeExpr
  | .pyList ts => .ok ⟨ts⟩
  | .pyTuple ts => .ok ⟨ts⟩
  | .already _ => .error .valueError

/-- The coercion performed at the top of `Var.__init__` and
`DataflowVar.__init__` (`expr.py` lines 95-96 and 130-131): a plain list or
tuple is replaced by `make_shape(...)`; anything else is passed through.
The error arms are unreachable because `make_shape` succeeds on every list
and tuple. -/
def coerceShape : Option RawShapeArg → Option ShapeAnn
  | some (.pyList ts) =>
    match make_shape (.pyList ts) with
    | .ok s => some (.shape s)
    | .error _ => none
  | some (.pyTuple ts) =>
    match make_shape (.pyTuple ts) with
    | .ok s => some (.shape s)
    | .error _ => none
  | some (.already a) => some a
  | none => none

/-- Static types, as far as the module consults them: `Var.__call__` only
asks whether the checked type is an instance of `ty.FuncType`. -/
inductive Ty where
  | dynTensor (ndim : Int)
  | shapeTy
  | funcTy (argTys : List Ty) (retTy : Ty)

/-- The `isinstance(_, ty.FuncType)` test of `Var.__call__`. -/
def Ty.isFuncType : Ty → Bool
  | .funcTy _ _ => true
  | _ => false

/-- A variable identifier (`relay.Id`): a globally unique serial number plus
the stored name hint. -/
structure Id where
  uid : Nat
  name : String
deriving DecidableEq, Repr

/-- Tag distinguishing the two variable kinds, `Var` and its subtype
`DataflowVar`. -/
inductive VarKind where
  | plain
  | dataflow
deriving DecidableEq, Repr

/-- A Relax variable (`Var` / `DataflowVar`, `expr.py` lines 81-141): the
identifier, the kind tag, the (coerced) shape annotation, the type
annotation, and the resolved static type (`checked_type`), absent until
populated. -/
structure Var where
  vid : Id
  kind : VarKind
  shape_ann : Option ShapeAnn
  type_ann : Option Ty
  checked_type : Option Ty

/-- `Var.name_hint` (`expr.py` lines 105-109): read-through to the name
stored in the underlying identifier. -/
def Var.name_hint (v : Var) : String :=
  v.vid.name

/-- Whether two variables denote the same binding site: identity of the
underlying identifier, never the name. -/
def Var.sameIdentity (a b : Var) : Bool :=
  a.vid.uid == b.vid.uid

/-- Modelled from the spec: the state of the global identifier minter that
the FFI constructors draw from — identifiers are globally unique per
construction. -/
structure IdGen where
  next : Nat
deriving DecidableEq, Repr

/-- Modelled from the spec: minting a fresh identifier stores the supplied
name and consumes one serial number. -/
def mintId (g : IdGen) (name : String) : Id × IdGen :=
  (⟨g.next, name⟩, ⟨g.next + 1⟩)

/-- The first argument of `Var.__init__` / `DataflowVar.__init__`: either a
fresh name string (a new identifier is minted) or an existing identifier
(aliasing, dispatched to the `...FromId` FFI constructor). -/
inductive NameOrId where
  | fresh (name : String)
  | byId (i : Id)

/-- Modelled from the spec: the FFI variable constructors
(`_ffi_api.Var` / `_ffi_api.VarFromId` and the `DataflowVar` analogues).
A fresh name mints a new globally unique identifier; an existing identifier
is reused unchanged, preserving identity. The resolved static type is
seeded from the type annotation and may be back-filled later by the
inference pass. -/
def ffiVar (kind : VarKind) (g : IdGen) (n : NameOrId) (sa : Option ShapeAnn)
    (ta : Option Ty) : Var × IdGen :=
  match n with
  | .fresh s =>
    let (i, g2) := mintId g s
    (⟨i, kind, sa, ta, ta⟩, g2)
  | .byId i => (⟨i, kind, sa, ta, ta⟩, g)

/-- `Var.__init__` (`expr.py` lines 88-103): coerce a plain list/tuple shape
argument through `make_shape`, then dispatch to the FFI constructor. -/
def Var.__init__ (g : IdGen) (n : NameOrId) (sa : Option RawShapeArg)
    (ta : Option Ty) : Var × IdGen :=
  ffiVar .plain g n (coerceShape sa) ta

/-- `DataflowVar.__init__` (`expr.py` lines 123-141): identical to
`Var.__init__` except for the constructed kind. -/
def DataflowVar.__init__ (g : IdGen) (n : NameOrId) (sa : Option RawShapeArg)
    (ta : Option Ty) : Var × IdGen :=
  ffiVar .dataflow g n (coerceShape sa) ta

mutual

/-- Relax expressions, restricted to the node kinds defined or consumed by
the module: variable occurrences, constants, calls, shape nodes, sequence
expressions and in-IR functions. -/
inductive Expr where
  | varE (v : Var)
  | constE (value : Int)
  | callE (op : Expr) (args : List Expr)
  | shapeE (s : ShapeExpr)
  | runtimeDepShapeE
  | seqE (blocks : List BindingBlock) (body : Expr)
  | funcE (f : Function)

/-- Bindings (`expr.py` lines 144-173): a direct variable binding or a
symbolic shape match binding. -/
inductive Binding where
  | varBinding (var : Var) (value : Expr)
  | matchShapeB (value : Expr) (pattern : List PrimExpr) (var : Var)

/-- Binding blocks (`expr.py` lines 176-192): a normal block or a dataflow
block, each an ordered sequence of bindings. -/
inductive BindingBlock where
  | block (bindings : List Binding)
  | dataflowBlock (bindings : List Binding)

/-- A Relax function (`expr.py` lines 206-227): parameters, body, declared
return type and shape, plus the resolved static type of the function value
itself. -/
inductive Function where
  | mk (params : List Var) (body : Expr) (ret_type : Ty) (ret_shape : Expr)
      (checked_type : Option Ty)

end

/-- The parameter list of a function. -/
def Function.params : Function → List Var
  | .mk ps _ _ _ _ => ps

/-- The body of a function. -/
def Function.body : Function → Expr
  | .mk _ b _ _ _ => b

/-- The declared return type of a function. -/
def Function.ret_type : Function → Ty
  | .mk _ _ rt _ _ => rt

/-- The declared return shape of a function. -/
def Function.ret_shape : Function → Expr
  | .mk _ _ _ rs _ => rs

/-- The resolved static type of a function value. -/
def Function.checked_type : Function → Option Ty
  | .mk _ _ _ _ ct => ct

/-- `Var.__call__` (`expr.py` lines 111-115): when the resolved static type
is present (truthy) and is a `FuncType`, return `Call(self, args)`;
otherwise raise `TypeError`. -/
def Var.__call__ (v : Var) (args : List Expr) : Except PyError Expr :=
  match v.checked_type with
  | some t =>
    if t.isFuncType then .ok (.callE (.varE v) args) else .error .typeError
  | none => .error .typeError

/-- `Function.__call__` (`expr.py` lines 243-251): unconditionally return
`Call(self, args, None, None)` — no type test is performed. -/
def Function.__call__ (f : Function) (args : List Expr) : Except PyError Expr :=
  .ok (.callE (.funcE f) args)

/-- `MatchShape.__init__` (`expr.py` lines 159-162): store the three fields;
construction never fails. -/
def MatchShape.__init__ (value : Expr) (pattern : List PrimExpr) (var : Var) :
    Binding :=
  .matchShapeB value pattern var

/-- `VarBinding.__init__` (`expr.py` lines 172-173): store the two fields;
construction never fails. -/
def VarBinding.__init__ (var : Var) (value : Expr) : Binding :=
  .varBinding var value

/-- The kind of well-formedness violation a checked construction reports. -/
inductive VioKind where
  | defBeforeUse
  | visibility
deriving DecidableEq, Repr

/-- A well-formedness violation: the identifier of the offending variable
occurrence together with the violated invariant. -/
structure Violation where
  uid : Nat
  kind : VioKind
deriving DecidableEq, Repr

mutual

/-- Modelled from the spec: the scope-related part of the checked-mode
validation run by the FFI `Function` constructor — every variable occurrence
must be in scope (def-before-use), and a `DataflowVar` is visible only in
the remainder of its own dataflow block and in the trailing body of the
enclosing `SeqExpr`, never from a sibling block or from outside that
`SeqExpr`. `scope` holds the identifiers currently visible; an out-of-scope
occurrence of a dataflow variable is a visibility violation, one of a plain
variable a def-before-use violation. Nested functions are validated by
their own construction and treated as closed here. -/
def vioExpr (scope : List Nat) : Expr → List Violation
  | .varE v =>
    if v.vid.uid ∈ scope then []
    else if v.kind == .dataflow then [⟨v.vid.uid, .visibility⟩]
    else [⟨v.vid.uid, .defBeforeUse⟩]
  | .constE _ => []
  | .callE op args => vioExpr scope op ++ vioExprList scope args
  | .shapeE _ => []
  | .runtimeDepShapeE => []
  | .seqE blocks body => vioBlocks scope [] blocks body
  | .funcE _ => []
termination_by e => sizeOf e

/-- Violations of each expression in a list, in order. -/
def vioExprList (scope : List Nat) : List Expr → List Violation
  | [] => []
  | e :: es => vioExpr scope e ++ vioExprList scope es
termination_by es => sizeOf es

/-- Violations of the bindings of a normal block: each value is checked in
the scope extended by all earlier bindings of the block; returns the
violations and the extended scope. -/
def vioBindings (scope : List Nat) : List Binding → List Violation × List Nat
  | [] => ([], scope)
  | .varBinding v e :: bs =>
    let vs := vioExpr scope e
    let (vs2, s2) := vioBindings (scope ++ [v.vid.uid]) bs
    (vs ++ vs2, s2)
  | .matchShapeB e _ v :: bs =>
    let vs := vioExpr scope e
    let (vs2, s2) := vioBindings (scope ++ [v.vid.uid]) bs
    (vs ++ vs2, s2)
termination_by bs => sizeOf bs

/-- Violations of the bindings of a dataflow block. Inside the block every
bound variable is visible; on exit the plain variables are exported to the
enclosing scope (`plainAcc`) while the dataflow variables (`dfAcc`) become
visible only to the trailing body of the enclosing `SeqExpr`. -/
def vioDfBindings (scope plainAcc dfAcc : List Nat) :
    List Binding → List Violation × List Nat × List Nat
  | [] => ([], plainAcc, dfAcc)
  | .varBinding v e :: bs =>
    let vs := vioExpr scope e
    let (p2, d2) :=
      if v.kind == .dataflow then (plainAcc, dfAcc ++ [v.vid.uid])
      else (plainAcc ++ [v.vid.uid], dfAcc)
    let (vs2, p3, d3) := vioDfBindings (scope ++ [v.vid.uid]) p2 d2 bs
    (vs ++ vs2, p3, d3)
  | .matchShapeB e _ v :: bs =>
    let vs := vioExpr scope e
    let (p2, d2) :=
      if v.kind == .dataflow then (plainAcc, dfAcc ++ [v.vid.uid])
      else (plainAcc ++ [v.vid.uid], dfAcc)
    let (vs2, p3, d3) := vioDfBindings (scope ++ [v.vid.uid]) p2 d2 bs
    (vs ++ vs2, p3, d3)
termination_by bs => sizeOf bs

/-- Violations of the blocks of a `SeqExpr` followed by its trailing body.
`bodyOnly` accumulates the dataflow variables that are visible to the
trailing body alone. -/
def vioBlocks (scope bodyOnly : List Nat) :
    List BindingBlock → Expr → List Violation
  | [], body => vioExpr (scope ++ bodyOnly) body
  | .block bs :: rest, body =>
    let (vs, s2) := vioBindings scope bs
    vs ++ vioBlocks s2 bodyOnly rest body
  | .dataflowBlock bs :: rest, body =>
    let (vs, plains, dfs) := vioDfBindings scope [] [] bs
    vs ++ vioBlocks (scope ++ plains) (bodyOnly ++ dfs) rest body
termination_by blocks body => sizeOf blocks + sizeOf body

end

/-- The identifiers bound by a function's parameters. -/
def paramScope (params : List Var) : List Nat :=
  params.map (fun v => v.vid.uid)

/-- A structured well-formedness error naming the offending variable. -/
inductive WFError where
  | undefinedVar (uid : Nat)
  | visibilityViolation (uid : Nat)
deriving DecidableEq, Repr

/-- The structured error reported for a violation. -/
def WFError.ofViolation : Violation → WFError
  | ⟨u, .defBeforeUse⟩ => .undefinedVar u
  | ⟨u, .visibility⟩ => .visibilityViolation u

/-- `Function.__init__` (`expr.py` lines 216-227). Modelled from the spec:
the FFI constructor runs checked-mode well-formedness validation and fails
atomically with a structured error identifying the first offending
variable; on success the fully constructed function is returned. -/
def Function.__init__ (params : List Var) (body : Expr) (rt : Ty) (rs : Expr) :
    Except WFError Function :=
  match vioExpr (paramScope params) body with
  | [] => .ok (.mk params body rt rs none)
  | v :: _ => .error (.ofViolation v)

/-- `Function.create_unchecked` (`expr.py` lines 229-241). Modelled from the
spec: the unchecked FFI constructor builds the same node while skipping all
validation, so it always succeeds. -/
def Function.create_unchecked (params : List Var) (body : Expr) (rt : Ty)
    (rs : Expr) : Function :=
  .mk params body rt rs none

/-- A run-time shape-mismatch error, reported with the mismatched concrete
values, or a rank mismatch. -/
inductive MatchErr where
  | dimMismatch (expected actual : Int)
  | rankMismatch
deriving DecidableEq, Repr

/-- The run-time environment of bound symbolic dimensions. -/
abbrev SymEnv := List (String × Int)

/-- Modelled from the spec: matching one pattern term against one concrete
dimension at run time. A literal asserts equality; a free symbol's first
occurrence binds it to the concrete dimension; a repeated occurrence of an
already-bound symbol asserts equality against its bound value and raises a
shape-mismatch error exactly when the equality fails. -/
def matchDim (env : SymEnv) (p : PrimExpr) (d : Int) : Except MatchErr SymEnv :=
  match p with
  | .lit n => if n = d then .ok env else .error (.dimMismatch n d)
  | .sym s =>
    match env.lookup s with
    | some v => if v = d then .ok env else .error (.dimMismatch v d)
    | none => .ok ((s, d) :: env)

/-- Modelled from the spec: the run-time execution of a `MatchShape`
binding's pattern against the actual shape, dimension by dimension in
order, threading the symbol environment; a rank mismatch is a hard shape
error. -/
def matchPattern (env : SymEnv) :
    List PrimExpr → List Int → Except MatchErr SymEnv
  | [], [] => .ok env
  | p :: ps, d :: ds =>
    match matchDim env p d with
    | .ok env2 => matchPattern env2 ps ds
    | .error e => .error e
  | [], _ :: _ => .error .rankMismatch
  | _ :: _, [] => .error .rankMismatch

/-! Concrete IR nodes used to instantiate the theorems below. -/

/-- A variable whose resolved static type is a function type. -/
def fnTypedVar : Var :=
  ⟨⟨0, "f"⟩, .plain, none, some (.funcTy [.dynTensor 2] (.dynTensor 2)),
    some (.funcTy [.dynTensor 2] (.dynTensor 2))⟩

/-- A variable whose resolved static type is a scalar tensor type. -/
def scalarTypedVar : Var :=
  ⟨⟨1, "s"⟩, .plain, none, some (.dynTensor 0), some (.dynTensor 0)⟩

/-- A variable whose resolved static type is absent. -/
def untypedVar : Var :=
  ⟨⟨2, "u"⟩, .plain, none, none, none⟩

/-- A function value whose resolved static type is a scalar tensor type,
not a function type. -/
def scalarTypedFn : Function :=
  .mk [] (.constE 0) (.dynTensor 0) .runtimeDepShapeE (some (.dynTensor 0))

/-- A plain variable that is never bound: uid 5. -/
def undefVarU : Var := ⟨⟨5, "undef"⟩, .plain, none, none, none⟩

/-- A plain variable used as a binding target: uid 6. -/
def targetVarX : Var := ⟨⟨6, "x"⟩, .plain, none, none, none⟩

/-- A dataflow variable: uid 3. -/
def dfVarD : Var := ⟨⟨3, "lv"⟩, .dataflow, none, none, none⟩

/-- A plain variable used as an outer binding target: uid 9. -/
def outerVarY : Var := ⟨⟨9, "y"⟩, .plain, none, none, none⟩

/-- A body whose only binding references the unbound variable `undefVarU`. -/
def undefRefBody : Expr :=
  .seqE [.block [.varBinding targetVarX (.varE undefVarU)]] (.constE 0)

/-- A `SeqExpr` whose dataflow block binds `d`, without leaking it. -/
def dfInnerSeq (d : Var) : Expr :=
  .seqE [.dataflowBlock [.varBinding d (.constE 0)]] (.constE 1)

/-- A body in which `d` is bound inside the dataflow block of an inner
`SeqExpr` and then referenced from a `BindingBlock` outside that
`SeqExpr`. -/
def dfOutsideRef (d x y : Var) : Expr :=
  .seqE [.block [.varBinding y (dfInnerSeq d)], .block [.varBinding x (.varE d)]]
    (.constE 2)

/-- A body in which `d` is bound inside a dataflow block and referenced from
the trailing body of the enclosing `SeqExpr`. -/
def dfBodyRef (d : Var) : Expr :=
  .seqE [.dataflowBlock [.varBinding d (.constE 0)]] (.varE d)

/-! Theorems. -/

/-- Claim C1: invoking a `Var` in call position returns a `Call` expression
with that variable as callee when its resolved static type is a function
type, and raises `TypeError` at call-construction time when the resolved
static type is absent or is not a function type. -/
theorem c1_var_call_requires_func_type (v : Var) (args : List Expr) :
    (∀ t : Ty, v.checked_type = some t → t.isFuncType = true →
      Var.__call__ v args = .ok (.callE (.varE v) args)) ∧
    (v.checked_type = none → Var.__call__ v args = .error .typeError) ∧
    (∀ t : Ty, v.checked_type = some t → t.isFuncType = false →
      Var.__call__ v args = .error .typeError) := by
  refine ⟨?_, ?_, ?_⟩
  · intro t h hf
    simp [Var.__call__, h, hf]
  · intro h
    simp [Var.__call__, h]
  · intro t h hf
    simp [Var.__call__, h, hf]

/-- Witness for C1 at concrete variables: a function-typed variable yields a
call, an untyped and a scalar-typed variable raise `TypeError`. -/
theorem c1_var_call_requires_func_type_witness :
    Var.__call__ fnTypedVar [] = .ok (.callE (.varE fnTypedVar) []) ∧
    Var.__call__ untypedVar [] = .error .typeError ∧
    Var.__call__ scalarTypedVar [] = .error .typeError := by
  exact ⟨(c1_var_call_requires_func_type fnTypedVar []).1 _ rfl rfl,
    (c1_var_call_requires_func_type untypedVar []).2.1 rfl,
    (c1_var_call_requires_func_type scalarTypedVar []).2.2 _ rfl rfl⟩

/-- Counterexample to claim C2 as stated: `scalarTypedFn` is a `Function`
value whose resolved static type is a scalar tensor type, not a function
type, yet `Function.__call__` succeeds and returns a call expression
instead of raising a type error. -/
theorem c2_function_call_cex :
    Function.checked_type scalarTypedFn = some (.dynTensor 0) ∧
    Ty.isFuncType (.dynTensor 0) = false ∧
    Function.__call__ scalarTypedFn [] =
      .ok (.callE (.funcE scalarTypedFn) []) :=
  ⟨rfl, rfl, rfl⟩

/-- Claim C2 (amended): `Function.__call__` performs no type check at all —
for every `Function` value and argument list it returns the call expression
with that function as callee, whatever the function's statically known type
is. -/
theorem c2_function_call_no_type_check (f : Function) (args : List Expr) :
    Function.__call__ f args = .ok (.callE (.funcE f) args) :=
  rfl

/-- Claim C3: a `ShapeExpr` built from `n` terms has `len` equal to `n`;
indexing at `0 <= i < n` returns the `i`-th term unchanged; indexing at any
`i >= n` raises `IndexError`. -/
theorem c3_shape_len_and_index (terms : List PrimExpr) :
    (ShapeExpr.mk terms).__len__ = terms.length ∧
    (∀ (i : Nat) (t : PrimExpr), terms.get? i = some t →
      (ShapeExpr.mk terms).__getitem__ (i : Int) = .ok t) ∧
    (∀ i : Int, (terms.length : Int) ≤ i →
      (ShapeExpr.mk terms).__getitem__ i = .error .indexError) := by
  refine ⟨rfl, ?_, ?_⟩
  · intro i t ht
    obtain ⟨hlt, -⟩ := List.get?_eq_some.mp ht
    simp only [ShapeExpr.__getitem__, tvmArrayGet, ShapeExpr.__len__]
    rw [if_neg (by omega), if_pos (by split <;> omega),
      if_neg (by omega), Int.toNat_natCast, ht]
  · intro i hi
    unfold ShapeExpr.__getitem__ ShapeExpr.__len__
    rw [if_pos hi]

/-- Witness for C3 at a concrete two-term shape. -/
theorem c3_shape_len_and_index_witness :
    (ShapeExpr.mk [.lit 5, .sym "x"]).__len__ = 2 ∧
    (ShapeExpr.mk [.lit 5, .sym "x"]).__getitem__ ((1 : Nat) : Int) =
      .ok (.sym "x") ∧
    (ShapeExpr.mk [.lit 5, .sym "x"]).__getitem__ 2 = .error .indexError := by
  obtain ⟨h1, h2, h3⟩ := c3_shape_len_and_index [.lit 5, .sym "x"]
  exact ⟨h1, h2 1 (.sym "x") rfl, h3 2 (by decide)⟩

/-- Claim C10: on a `ShapeExpr` of `n >= 1` terms, a negative index `i` with
`-n <= i <= -1` passes the `index >= len` guard and falls through to Python
sequence indexing, returning the `(n+i)`-th term without error. -/
theorem c10_negative_index (terms : List PrimExpr) (i : Int) (t : PrimExpr)
    (h1 : -(terms.length : Int) ≤ i) (h2 : i ≤ -1)
    (h3 : terms.get? (i + (terms.length : Int)).toNat = some t) :
    (ShapeExpr.mk terms).__getitem__ i = .ok t := by
  simp only [ShapeExpr.__getitem__, tvmArrayGet, ShapeExpr.__len__]
  rw [if_neg (by omega), if_pos (by split <;> omega), if_pos (by omega), h3]

/-- Witness for C10: index `-1` on a two-term shape returns the last term. -/
theorem c10_negative_index_witness :
    (ShapeExpr.mk [.lit 5, .sym "x"]).__getitem__ (-1) = .ok (.sym "x") := by
  exact c10_negative_index [.lit 5, .sym "x"] (-1) (.sym "x") (by decide)
    (by decide) rfl

/-- Claim C4: whenever checked-mode validation finds a violation, checked
construction (`Function.__init__`) fails atomically with the structured
well-formedness error for the first violation while unchecked construction
(`Function.create_unchecked`) of the same graph succeeds without
validation; and a graph whose binding references an unbound plain variable
`u` does produce exactly the undefined-variable violation for `u`. -/
theorem c4_checked_vs_unchecked (params : List Var) (body : Expr) (rt : Ty)
    (rs : Expr) :
    (∀ (v : Violation) (rest : List Violation),
      vioExpr (paramScope params) body = v :: rest →
      Function.__init__ params body rt rs = .error (.ofViolation v) ∧
      Function.create_unchecked params body rt rs = .mk params body rt rs none) ∧
    (∀ x u : Var, u.kind = .plain → u.vid.uid ∉ paramScope params →
      vioExpr (paramScope params)
        (.seqE [.block [.varBinding x (.varE u)]] (.constE 0)) =
        [⟨u.vid.uid, .defBeforeUse⟩]) := by
  constructor
  · intro v rest h
    refine ⟨?_, rfl⟩
    unfold Function.__init__
    rw [h]
  · intro x u hk hu
    simp [vioExpr, vioBlocks, vioBindings, hk, hu]

/-- Witness for C4: the concrete graph binding `targetVarX` to the unbound
`undefVarU` fails checked construction with the structured error naming
uid 5 and succeeds unchecked. -/
theorem c4_checked_vs_unchecked_witness :
    Function.__init__ [] undefRefBody (.dynTensor 0) .runtimeDepShapeE =
      .error (.undefinedVar 5) ∧
    Function.create_unchecked [] undefRefBody (.dynTensor 0) .runtimeDepShapeE =
      .mk [] undefRefBody (.dynTensor 0) .runtimeDepShapeE none ∧
    vioExpr (paramScope []) undefRefBody = [⟨5, .defBeforeUse⟩] := by
  have h := c4_checked_vs_unchecked [] undefRefBody (.dynTensor 0)
    .runtimeDepShapeE
  have hv : vioExpr (paramScope []) undefRefBody = [⟨5, .defBeforeUse⟩] :=
    h.2 targetVarX undefVarU rfl (by simp [paramScope])
  obtain ⟨h1, h2⟩ := h.1 ⟨5, .defBeforeUse⟩ [] hv
  exact ⟨h1, h2, hv⟩

/-- Claim C5: a `MatchShape` binding is constructed without any check; at
run time, within one pattern, the first occurrence of a free symbol binds
it to the actual dimension, while a repeated occurrence of a bound symbol
asserts equality and raises a shape-mismatch error exactly when the
equality fails; in particular `[m, 4]` against `[7, 4]` binds `m := 7`, and
`[m, m]` then succeeds against `[7, 7]` and fails against `[7, 8]`. -/
theorem c5_matchshape_semantics :
    (∀ (value : Expr) (pattern : List PrimExpr) (var : Var),
      MatchShape.__init__ value pattern var = .matchShapeB value pattern var) ∧
    (∀ (env : SymEnv) (s : String) (d : Int), env.lookup s = none →
      matchDim env (.sym s) d = .ok ((s, d) :: env)) ∧
    (∀ (env : SymEnv) (s : String) (d v : Int), env.lookup s = some v →
      (v = d → matchDim env (.sym s) d = .ok env) ∧
      (v ≠ d → matchDim env (.sym s) d = .error (.dimMismatch v d))) ∧
    matchPattern [] [.sym "m", .lit 4] [7, 4] = .ok [("m", 7)] ∧
    matchPattern [("m", 7)] [.sym "m", .sym "m"] [7, 7] = .ok [("m", 7)] ∧
    matchPattern [("m", 7)] [.sym "m", .sym "m"] [7, 8] =
      .error (.dimMismatch 7 8) := by
  refine ⟨fun _ _ _ => rfl, ?_, ?_, rfl, rfl, rfl⟩
  · intro env s d h
    simp [matchDim, h]
  · intro env s d v h
    refine ⟨fun hvd => ?_, fun hvd => ?_⟩
    · simp [matchDim, h, hvd]
    · simp [matchDim, h, hvd]

/-- Witness for C5 at concrete inputs: `k` is bound at first occurrence,
then equality is asserted on repetition, failing exactly on inequality. -/
theorem c5_matchshape_semantics_witness :
    matchDim [] (.sym "k") 5 = .ok [("k", 5)] ∧
    matchDim [("k", 5)] (.sym "k") 5 = .ok [("k", 5)] ∧
    matchDim [("k", 5)] (.sym "k") 6 = .error (.dimMismatch 5 6) := by
  have h := c5_matchshape_semantics
  exact ⟨h.2.1 [] "k" 5 rfl, (h.2.2.1 [("k", 5)] "k" 5 5 rfl).1 rfl,
    (h.2.2.1 [("k", 5)] "k" 6 5 rfl).2 (by decide)⟩

/-- Claim C6: two variables each constructed from a fresh name (in
particular from the same name string, since `s1` and `s2` are arbitrary)
are never identity-equal, while any two variables constructed from the same
existing identifier always share identity. -/
theorem c6_var_identity (g1 g2 : IdGen) (s1 s2 : String)
    (sa1 sa2 : Option RawShapeArg) (ta1 ta2 : Option Ty) :
    ((Var.__init__ g1 (.fresh s1) sa1 ta1).2.next ≤ g2.next →
      Var.sameIdentity (Var.__init__ g1 (.fresh s1) sa1 ta1).1
        (Var.__init__ g2 (.fresh s2) sa2 ta2).1 = false) ∧
    (∀ i : Id,
      Var.sameIdentity (Var.__init__ g1 (.byId i) sa1 ta1).1
        (Var.__init__ g2 (.byId i) sa2 ta2).1 = true) := by
  constructor
  · intro h
    simp only [Var.__init__, ffiVar, mintId] at h ⊢
    simp [Var.sameIdentity]
    omega
  · intro i
    simp [Var.__init__, ffiVar, Var.sameIdentity]

/-- Witness for C6: two fresh constructions from the same name `"x"` differ
in identity; two constructions from the same identifier share it. -/
theorem c6_var_identity_witness :
    Var.sameIdentity (Var.__init__ ⟨0⟩ (.fresh "x") none none).1
      (Var.__init__ ⟨1⟩ (.fresh "x") none none).1 = false ∧
    Var.sameIdentity (Var.__init__ ⟨0⟩ (.byId ⟨7, "x"⟩) none none).1
      (Var.__init__ ⟨1⟩ (.byId ⟨7, "x"⟩) none none).1 = true := by
  have h := c6_var_identity ⟨0⟩ ⟨1⟩ "x" "x" none none none none
  exact ⟨h.1 (by decide), h.2 ⟨7, "x"⟩⟩

/-- Claim C7: a plain list or tuple supplied as the shape annotation of a
`Var` or a `DataflowVar` is promoted through `make_shape` to a `ShapeExpr`
holding exactly the supplied terms before the node is built. -/
theorem c7_shape_promotion (ts : List PrimExpr) (g : IdGen) (n : NameOrId)
    (ta : Option Ty) :
    (Var.__init__ g n (some (.pyList ts)) ta).1.shape_ann =
      some (.shape ⟨ts⟩) ∧
    (Var.__init__ g n (some (.pyTuple ts)) ta).1.shape_ann =
      some (.shape ⟨ts⟩) ∧
    (DataflowVar.__init__ g n (some (.pyList ts)) ta).1.shape_ann =
      some (.shape ⟨ts⟩) ∧
    (DataflowVar.__init__ g n (some (.pyTuple ts)) ta).1.shape_ann =
      some (.shape ⟨ts⟩) ∧
    make_shape (.pyList ts) = .ok ⟨ts⟩ ∧
    make_shape (.pyTuple ts) = .ok ⟨ts⟩ := by
  cases n <;> exact ⟨rfl, rfl, rfl, rfl, rfl, rfl⟩

/-- Claim C8: a dataflow variable `d` bound inside a dataflow block of an
inner `SeqExpr` and referenced from a `BindingBlock` outside that `SeqExpr`
makes checked construction fail with a visibility error naming `d`, while
referencing `d` from its own `SeqExpr`'s trailing body validates
successfully. -/
theorem c8_dataflow_visibility (params : List Var) (d x y : Var) (rt : Ty)
    (rs : Expr) (hd : d.kind = .dataflow) (h1 : d.vid.uid ∉ paramScope params)
    (h2 : d.vid.uid ≠ y.vid.uid) :
    Function.__init__ params (dfOutsideRef d x y) rt rs =
      .error (.visibilityViolation d.vid.uid) ∧
    Function.__init__ params (dfBodyRef d) rt rs =
      .ok (.mk params (dfBodyRef d) rt rs none) := by
  constructor
  · have hv : vioExpr (paramScope params) (dfOutsideRef d x y) =
        [⟨d.vid.uid, .visibility⟩] := by
      simp [dfOutsideRef, dfInnerSeq, vioExpr, vioBlocks, vioBindings,
        vioDfBindings, hd, h1, h2]
    unfold Function.__init__
    rw [hv]
    rfl
  · have hv : vioExpr (paramScope params) (dfBodyRef d) = [] := by
      simp [dfBodyRef, vioExpr, vioBlocks, vioDfBindings, hd]
    unfold Function.__init__
    rw [hv]

/-- Witness for C8 at concrete variables: the outside reference to the
dataflow variable with uid 3 fails with a visibility error; the
trailing-body reference validates. -/
theorem c8_dataflow_visibility_witness :
    Function.__init__ [] (dfOutsideRef dfVarD targetVarX outerVarY)
      (.dynTensor 0) .runtimeDepShapeE = .error (.visibilityViolation 3) ∧
    Function.__init__ [] (dfBodyRef dfVarD) (.dynTensor 0) .runtimeDepShapeE =
      .ok (.mk [] (dfBodyRef dfVarD) (.dynTensor 0) .runtimeDepShapeE none) := by
  exact c8_dataflow_visibility [] dfVarD targetVarX outerVarY (.dynTensor 0)
    .runtimeDepShapeE rfl (by simp [paramScope]) (by decide)

/-- Claim C9: `name_hint` is a read-through to the name stored in the
underlying identifier — a fresh construction's `name_hint` is exactly the
supplied name — and identity is decided by the identifier alone: equal
identifiers give identity-equality whatever the names are, and distinct
identifiers never do, even with equal names. -/
theorem c9_name_hint_readthrough (g : IdGen) (s : String)
    (sa : Option RawShapeArg) (ta : Option Ty) :
    (Var.__init__ g (.fresh s) sa ta).1.name_hint = s ∧
    (∀ v : Var, v.name_hint = v.vid.name) ∧
    (∀ (u : Nat) (n1 n2 : String) (k1 k2 : VarKind)
      (sa1 sa2 : Option ShapeAnn) (ta1 ta2 ct1 ct2 : Option Ty),
      Var.sameIdentity ⟨⟨u, n1⟩, k1, sa1, ta1, ct1⟩
        ⟨⟨u, n2⟩, k2, sa2, ta2, ct2⟩ = true) ∧
    (∀ (u1 u2 : Nat) (nm : String) (k1 k2 : VarKind)
      (sa1 sa2 : Option ShapeAnn) (ta1 ta2 ct1 ct2 : Option Ty), u1 ≠ u2 →
      Var.sameIdentity ⟨⟨u1, nm⟩, k1, sa1, ta1, ct1⟩
        ⟨⟨u2, nm⟩, k2, sa2, ta2, ct2⟩ = false) := by
  refine ⟨rfl, fun _ => rfl, ?_, ?_⟩
  · intros
    simp [Var.sameIdentity]
  · intro u1 u2 nm k1 k2 sa1 sa2 ta1 ta2 ct1 ct2 h
    simp [Var.sameIdentity, h]

/-- Witness for C9: a fresh variable named `"batch"` reports that name;
equal identifiers with different names share identity; distinct identifiers
with equal names do not. -/
theorem c9_name_hint_readthrough_witness :
    (Var.__init__ ⟨0⟩ (.fresh "batch") none none).1.name_hint = "batch" ∧
    Var.sameIdentity ⟨⟨4, "a"⟩, .plain, none, none, none⟩
      ⟨⟨4, "b"⟩, .plain, none, none, none⟩ = true ∧
    Var.sameIdentity ⟨⟨4, "a"⟩, .plain, none, none, none⟩
      ⟨⟨5, "a"⟩, .plain, none, none, none⟩ = false := by
  have h := c9_name_hint_readthrough ⟨0⟩ "batch" none none
  exact ⟨h.1, h.2.2.1 4 "a" "b" _ _ _ _ _ _ _ _,
    h.2.2.2 4 5 "a" _ _ _ _ _ _ _ _ (by decide)⟩

end Relax
